import Mathlib

/-!
Verification of the pH/alkalinity speciation core of the ADM1 simulation
application (`calculate_ph_and_alkalinity_fixed.py`).

The embedding uses exact rational arithmetic (`ℚ`) in place of IEEE floats:
all claimed properties are algebraic/structural, none depends on rounding.
Python dictionaries become association lists with first-match lookup,
the stream object becomes a `WasteStream` structure whose two output
attributes are `Option`-valued (modelling Python attribute presence, which
the source tests with `hasattr`), and the scipy root-finder `brenth` is
modelled by its outcome (found root / invalid bracket / iteration
exhaustion) together with the exception each failure raises per scipy's
documentation.
-/

/-- Molecular weight of carbon, the value of
`chemicals.elements.molecular_weight({'C': 1})` used by the source
(12.011 g/mol). No verified property depends on the exact value. -/
def C_mw : ℚ := 12011 / 1000

/-- Molecular weight of nitrogen, the value of
`chemicals.elements.molecular_weight({'N': 1})` (14.007 g/mol). -/
def N_mw : ℚ := 14007 / 1000

/-- Approximate molecular weight of acetate used by the source. -/
def MW_AC : ℚ := 60

/-- Approximate molecular weight of propionate used by the source. -/
def MW_PRO : ℚ := 74

/-- Approximate molecular weight of butyrate used by the source. -/
def MW_BU : ℚ := 88

/-- Approximate molecular weight of valerate used by the source. -/
def MW_VA : ℚ := 102

/-- First-match lookup in an association list, `Option`-valued: the model of
`key in dict` plus `dict[key]` on a Python dictionary. -/
def dfind : List (String × ℚ) → String → Option ℚ
  | [], _ => none
  | p :: t, k => if p.1 = k then some p.2 else dfind t k

/-- The model of Python `dict.get(key, 0)`: the stored value, or `0` when the
key is absent. -/
def dget (c : List (String × ℚ)) (k : String) : ℚ :=
  (dfind c k).getD 0

/-- Charge-balance residual `acid_base_rxn(h_ion, components_molarity, Ka)`
from the source, translated term by term.  `Ka` is the seven-entry vector
`[Kw, Ka_nh, Ka_co2, Ka_ac, Ka_pr, Ka_bu, Ka_va]`. -/
def acid_base_rxn (h_ion : ℚ) (components_molarity : List (String × ℚ))
    (Ka : Fin 7 → ℚ) : ℚ :=
  let S_cat := dget components_molarity "S_cat"
  let S_an := dget components_molarity "S_an"
  let S_IN := dget components_molarity "S_IN"
  let S_IC := dget components_molarity "S_IC"
  let S_ac := dget components_molarity "S_ac"
  let S_pro := dget components_molarity "S_pro"
  let S_bu := dget components_molarity "S_bu"
  let S_va := dget components_molarity "S_va"
  let Kw := Ka 0
  let Ka_nh := Ka 1
  let Ka_co2 := Ka 2
  let Ka_ac := Ka 3
  let Ka_pr := Ka 4
  let Ka_bu := Ka 5
  let Ka_va := Ka 6
  let oh_ion := Kw / h_ion
  let nh3 := S_IN * Ka_nh / (Ka_nh + h_ion)
  let hco3 := S_IC * Ka_co2 / (Ka_co2 + h_ion)
  let ac := S_ac * Ka_ac / (Ka_ac + h_ion)
  let pro := S_pro * Ka_pr / (Ka_pr + h_ion)
  let bu := S_bu * Ka_bu / (Ka_bu + h_ion)
  let va := S_va * Ka_va / (Ka_va + h_ion)
  S_cat + h_ion + (S_IN - nh3) - S_an - oh_ion - hco3 - ac - pro - bu - va

/-- The charge-balance formula exactly as the specification writes it:
`f(h) = S_cat + h + (S_IN − NH3(h)) − S_an − OH(h) − HCO3(h) − Ac(h) − Pro(h)
− Bu(h) − Va(h)` with dissociated fraction `S_X · Ka_X / (Ka_X + h)` and
`OH(h) = Kw / h`.  Stated over explicit scalar arguments so it can be compared
with the source-derived `acid_base_rxn`. -/
def charge_balance_spec (h S_cat S_an S_IN S_IC S_ac S_pro S_bu S_va
    Kw Ka_nh Ka_co2 Ka_ac Ka_pr Ka_bu Ka_va : ℚ) : ℚ :=
  S_cat + h + (S_IN - S_IN * Ka_nh / (Ka_nh + h)) - S_an - Kw / h
    - S_IC * Ka_co2 / (Ka_co2 + h) - S_ac * Ka_ac / (Ka_ac + h)
    - S_pro * Ka_pr / (Ka_pr + h) - S_bu * Ka_bu / (Ka_bu + h)
    - S_va * Ka_va / (Ka_va + h)

/-- `acid_base_rxn` with an explicit definedness guard on every division of
the source expression: `none` exactly when some denominator vanishes, i.e.
when the corresponding real-number evaluation is undefined. -/
def acid_base_rxn_checked (h_ion : ℚ) (components_molarity : List (String × ℚ))
    (Ka : Fin 7 → ℚ) : Option ℚ :=
  if h_ion = 0 ∨ Ka 1 + h_ion = 0 ∨ Ka 2 + h_ion = 0 ∨ Ka 3 + h_ion = 0 ∨
      Ka 4 + h_ion = 0 ∨ Ka 5 + h_ion = 0 ∨ Ka 6 + h_ion = 0 then
    none
  else
    some (acid_base_rxn h_ion components_molarity Ka)

/-- Alkalinity computation `calculate_alkalinity(components_molarity, pH, Ka)`
from the source.  The source receives `pH` and immediately recovers
`h_ion = 10**(-pH)`; since its only caller passes `pH = -log10(h_ion)`, the
model is parametrised directly by `h_ion` (in exact arithmetic the two
round-trip exactly).  The body below is the source body after that first
line, translated term by term. -/
def calculate_alkalinity (components_molarity : List (String × ℚ))
    (h_ion : ℚ) (Ka : Fin 7 → ℚ) : ℚ :=
  let S_cat := dget components_molarity "S_cat"
  let S_an := dget components_molarity "S_an"
  let S_IN := dget components_molarity "S_IN"
  let S_IC := dget components_molarity "S_IC"
  let S_ac := dget components_molarity "S_ac"
  let S_pro := dget components_molarity "S_pro"
  let S_bu := dget components_molarity "S_bu"
  let S_va := dget components_molarity "S_va"
  let Kw := Ka 0
  let Ka_nh := Ka 1
  let Ka_co2 := Ka 2
  let Ka_ac := Ka 3
  let Ka_pr := Ka 4
  let Ka_bu := Ka 5
  let Ka_va := Ka 6
  let oh_ion := Kw / h_ion
  let nh3 := S_IN * Ka_nh / (Ka_nh + h_ion)
  let hco3 := S_IC * Ka_co2 / (Ka_co2 + h_ion)
  let ac := S_ac * Ka_ac / (Ka_ac + h_ion)
  let pro := S_pro * Ka_pr / (Ka_pr + h_ion)
  let bu := S_bu * Ka_bu / (Ka_bu + h_ion)
  let va := S_va * Ka_va / (Ka_va + h_ion)
  let alk_molar := hco3 + oh_ion - h_ion + nh3 + ac + pro + bu + va + S_cat - S_an
  max 0 (alk_molar * 1000)

/-- The stream object consumed and mutated by the core.  `iconc` models the
component-ID-indexed mass concentrations (`stream.components.IDs` together
with `stream.iconc`); `pH` and `SAlk` model the `_pH` and `_SAlk` output
attributes, `Option`-valued because the source probes them with `hasattr`
in the non-liquid branch (Python attribute assignment elsewhere always
succeeds, creating the attribute). -/
structure WasteStream where
  phase : String
  iconc : List (String × ℚ)
  pH : Option ℚ
  SAlk : Option ℚ
deriving DecidableEq

/-- The component-ID filter list of `get_component_molarities`. -/
def recognized_ids : List String :=
  ["S_cat", "S_an", "S_IC", "S_IN", "S_ac", "S_pro", "S_bu", "S_va", "H2O"]

/-- One conditional block of `get_component_molarities`: when `id` is present
in the collected concentrations, add the entry `id ↦ value / denom`. -/
def mol_entry (concentrations : List (String × ℚ)) (id : String) (denom : ℚ) :
    List (String × ℚ) :=
  match dfind concentrations id with
  | some v => [(id, v / denom)]
  | none => []

/-- `get_component_molarities(stream)` from the source: collect the
recognized component concentrations, then convert each present species to
molarity with its molecular weight, in the source's fixed order.  (`H2O`
passes the filter but is never given a molarity entry, as in the source.) -/
def get_component_molarities (stream : WasteStream) : List (String × ℚ) :=
  let concentrations := stream.iconc.filter (fun p => decide (p.1 ∈ recognized_ids))
  mol_entry concentrations "S_cat" 1000 ++
  mol_entry concentrations "S_an" 1000 ++
  mol_entry concentrations "S_IN" (N_mw * 1000) ++
  mol_entry concentrations "S_IC" (C_mw * 1000) ++
  mol_entry concentrations "S_ac" (MW_AC * 1000) ++
  mol_entry concentrations "S_pro" (MW_PRO * 1000) ++
  mol_entry concentrations "S_bu" (MW_BU * 1000) ++
  mol_entry concentrations "S_va" (MW_VA * 1000)

/-- Python exceptions relevant to the solver. -/
inductive PyExc where
  | valueError
  | runtimeError
deriving DecidableEq

/-- Outcome of one run of the scipy bracketing root-finder `brenth` on the
charge-balance residual over `[1e-14, 1.0]` (`xtol=1e-12`, `maxiter=100`).
The run is a float computation outside the embedding, so it enters the model
as a nondeterministic parameter; every theorem below holds for all outcomes. -/
inductive RootOutcome where
  | found (h : ℚ)
  | invalidBracket
  | exhausted
deriving DecidableEq

/-- Behaviour of `scipy.optimize.brenth` at each outcome, per the scipy
documentation: a bracket whose endpoints have the same sign raises
`ValueError` ("f(a) and f(b) must have different signs"); failure to
converge within `maxiter` iterations raises `RuntimeError` (the default
`disp=True`); otherwise the root is returned. -/
def brenth_result : RootOutcome → Except PyExc ℚ
  | .found h => .ok h
  | .invalidBracket => .error .valueError
  | .exhausted => .error .runtimeError

/-- `solve_ph(components_molarity, Ka)` from the source: run `brenth` and
return its root; the `try/except ValueError` clause converts a `ValueError`
into the neutral-pH default `1e-7`.  Any other exception is not caught and
propagates. -/
def solve_ph (outcome : RootOutcome) : Except PyExc ℚ :=
  match brenth_result outcome with
  | .ok h => .ok h
  | .error .valueError => .ok (1 / 10 ^ 7)
  | .error e => .error e

/-- `update_ph_and_alkalinity(stream)` from the source.  `negLog10` stands
for the transcendental `-np.log10`; it is a parameter because no verified
property depends on its values.  `outcome` is the root-finder run (see
`RootOutcome`).  The non-liquid branch writes the defaults only through
`hasattr` guards, modelled by `Option.map`; the other branches assign the
attributes unconditionally.  The source constructs the fixed vector
`Ka = 10**(-pKa_base)` from literature pKa values; the model takes `Ka` as a
parameter since every claimed property holds for any choice. -/
def update_ph_and_alkalinity (negLog10 : ℚ → ℚ) (Ka : Fin 7 → ℚ)
    (outcome : RootOutcome) (stream : WasteStream) : Except PyExc WasteStream :=
  if stream.phase ≠ "l" then
    .ok { stream with
            pH := stream.pH.map (fun _ => 7),
            SAlk := stream.SAlk.map (fun _ => 0) }
  else
    let components_molarity := get_component_molarities stream
    if components_molarity = [] then
      .ok { stream with pH := some 7, SAlk := some (5 / 2) }
    else
      match solve_ph outcome with
      | .error e => .error e
      | .ok h_ion =>
        let pH := negLog10 h_ion
        let alk0 := calculate_alkalinity components_molarity h_ion Ka
        let S_IC_molarity := dget components_molarity "S_IC"
        let alk := if 1 / 100 < S_IC_molarity then
            max alk0 (S_IC_molarity * (7 / 10) * 1000)
          else alk0
        .ok { stream with pH := some pH, SAlk := some alk }

/-! ## Basic lemmas about the dictionary model -/

theorem dfind_eq_none {c : List (String × ℚ)} {k : String}
    (h : ∀ p ∈ c, p.1 ≠ k) : dfind c k = none := by
  induction c with
  | nil => rfl
  | cons p t ih =>
    rw [dfind, if_neg (h p (List.mem_cons_self p t))]
    exact ih (fun q hq => h q (List.mem_cons_of_mem p hq))

theorem dfind_mem {c : List (String × ℚ)} {k : String} {v : ℚ}
    (h : dfind c k = some v) : (k, v) ∈ c := by
  induction c with
  | nil => simp [dfind] at h
  | cons p t ih =>
    by_cases hp : p.1 = k
    · rw [dfind, if_pos hp] at h
      injection h with h
      subst h
      subst hp
      exact List.mem_cons_self p t
    · rw [dfind, if_neg hp] at h
      exact List.mem_cons_of_mem p (ih h)

theorem dget_nonneg {c : List (String × ℚ)} (hc : ∀ p ∈ c, 0 ≤ p.2)
    (k : String) : 0 ≤ dget c k := by
  unfold dget
  cases hf : dfind c k with
  | none => simp
  | some v => simpa using hc (k, v) (dfind_mem hf)

theorem mol_entry_none {c : List (String × ℚ)} {id : String} {d : ℚ}
    (h : dfind c id = none) : mol_entry c id d = [] := by
  unfold mol_entry
  rw [h]

/-- If no entry of the stream carries one of the eight species identifiers,
the extracted molarity dictionary is empty. -/
theorem gcm_eq_nil (s : WasteStream)
    (habs : ∀ p ∈ s.iconc, p.1 ∉
      (["S_cat", "S_an", "S_IN", "S_IC", "S_ac", "S_pro", "S_bu", "S_va"] :
        List String)) :
    get_component_molarities s = [] := by
  have hfind : ∀ k ∈ (["S_cat", "S_an", "S_IN", "S_IC", "S_ac", "S_pro",
      "S_bu", "S_va"] : List String),
      dfind (s.iconc.filter fun p => decide (p.1 ∈ recognized_ids)) k = none := by
    intro k hk
    apply dfind_eq_none
    intro p hp hpk
    exact habs p (List.mem_of_mem_filter hp) (hpk ▸ hk)
  simp only [get_component_molarities]
  rw [mol_entry_none (hfind "S_cat" (by simp)),
      mol_entry_none (hfind "S_an" (by simp)),
      mol_entry_none (hfind "S_IN" (by simp)),
      mol_entry_none (hfind "S_IC" (by simp)),
      mol_entry_none (hfind "S_ac" (by simp)),
      mol_entry_none (hfind "S_pro" (by simp)),
      mol_entry_none (hfind "S_bu" (by simp)),
      mol_entry_none (hfind "S_va" (by simp))]
  rfl

/-! ## Branch lemmas for `update_ph_and_alkalinity` -/

theorem update_nonliquid (negLog10 : ℚ → ℚ) (Ka : Fin 7 → ℚ)
    (outcome : RootOutcome) (s : WasteStream) (hph : s.phase ≠ "l") :
    update_ph_and_alkalinity negLog10 Ka outcome s =
      .ok { s with pH := s.pH.map (fun _ => 7),
                   SAlk := s.SAlk.map (fun _ => 0) } := by
  unfold update_ph_and_alkalinity
  rw [if_pos hph]

theorem update_empty (negLog10 : ℚ → ℚ) (Ka : Fin 7 → ℚ)
    (outcome : RootOutcome) (s : WasteStream) (hl : s.phase = "l")
    (hm : get_component_molarities s = []) :
    update_ph_and_alkalinity negLog10 Ka outcome s =
      .ok { s with pH := some 7, SAlk := some (5 / 2) } := by
  unfold update_ph_and_alkalinity
  rw [if_neg (by simp [hl])]
  simp only [hm, eq_self_iff_true, if_true]

theorem update_err (negLog10 : ℚ → ℚ) (Ka : Fin 7 → ℚ)
    (outcome : RootOutcome) (s : WasteStream) (e : PyExc)
    (hl : s.phase = "l") (hm : get_component_molarities s ≠ [])
    (hs : solve_ph outcome = .error e) :
    update_ph_and_alkalinity negLog10 Ka outcome s = .error e := by
  unfold update_ph_and_alkalinity
  rw [if_neg (by simp [hl])]
  simp only [if_neg hm, hs]

theorem update_full (negLog10 : ℚ → ℚ) (Ka : Fin 7 → ℚ)
    (outcome : RootOutcome) (s : WasteStream) (h_ion : ℚ)
    (hl : s.phase = "l") (hm : get_component_molarities s ≠ [])
    (hs : solve_ph outcome = .ok h_ion) :
    update_ph_and_alkalinity negLog10 Ka outcome s =
      .ok { s with
              pH := some (negLog10 h_ion),
              SAlk := some (
                if 1 / 100 < dget (get_component_molarities s) "S_IC" then
                  max (calculate_alkalinity (get_component_molarities s) h_ion Ka)
                      (dget (get_component_molarities s) "S_IC" * (7 / 10) * 1000)
                else
                  calculate_alkalinity (get_component_molarities s) h_ion Ka) } := by
  unfold update_ph_and_alkalinity
  rw [if_neg (by simp [hl])]
  simp only [if_neg hm, hs]

theorem calculate_alkalinity_nonneg (c : List (String × ℚ)) (h_ion : ℚ)
    (Ka : Fin 7 → ℚ) : 0 ≤ calculate_alkalinity c h_ion Ka :=
  le_max_left 0 _

/-- Every successful run of the solver leaves phase and concentrations
untouched and writes only non-negative alkalinity values. -/
theorem update_ok_inv (negLog10 : ℚ → ℚ) (Ka : Fin 7 → ℚ)
    (outcome : RootOutcome) (s s' : WasteStream)
    (hok : update_ph_and_alkalinity negLog10 Ka outcome s = .ok s') :
    s'.phase = s.phase ∧ s'.iconc = s.iconc ∧
      ∀ a, s'.SAlk = some a → 0 ≤ a := by
  by_cases hph : s.phase = "l"
  · by_cases hm : get_component_molarities s = []
    · rw [update_empty negLog10 Ka outcome s hph hm] at hok
      obtain rfl := Except.ok.inj hok
      refine ⟨rfl, rfl, fun a ha => ?_⟩
      simp only [Option.some.injEq] at ha
      rw [← ha]
      norm_num
    · cases hsv : solve_ph outcome with
      | error e =>
        rw [update_err negLog10 Ka outcome s e hph hm hsv] at hok
        exact Except.noConfusion hok
      | ok h =>
        rw [update_full negLog10 Ka outcome s h hph hm hsv] at hok
        obtain rfl := Except.ok.inj hok
        refine ⟨rfl, rfl, fun a ha => ?_⟩
        simp only [Option.some.injEq] at ha
        rw [← ha]
        split
        · exact le_trans (calculate_alkalinity_nonneg _ _ _) (le_max_left _ _)
        · exact calculate_alkalinity_nonneg _ _ _
  · rw [update_nonliquid negLog10 Ka outcome s hph] at hok
    obtain rfl := Except.ok.inj hok
    refine ⟨rfl, rfl, fun a ha => ?_⟩
    cases hS : s.SAlk with
    | none => rw [hS] at ha; exact Option.noConfusion ha
    | some b =>
      rw [hS] at ha
      injection ha with h0
      exact le_of_eq h0

/-! ## Claim theorems -/

/-- C1: the claim states that both root-finder failure modes (invalid
bracket and iteration exhaustion) are recovered by returning the neutral
default h = 1e-7, so no exception ever reaches the caller.  Evaluating the
code: the invalid-bracket `ValueError` is caught, but iteration exhaustion
raises `RuntimeError`, which the source's `except ValueError` clause does
not catch, so `solve_ph` — and with it `update_ph_and_alkalinity` — lets it
propagate. -/
theorem solve_ph_exhaustion_uncaught :
    solve_ph RootOutcome.invalidBracket = .ok (1 / 10 ^ 7) ∧
    solve_ph RootOutcome.exhausted = .error PyExc.runtimeError ∧
    update_ph_and_alkalinity (fun _ => 7) (fun _ => 1) RootOutcome.exhausted
        ⟨"l", [("S_ac", 60000)], some 7, some 0⟩ = .error PyExc.runtimeError := by
  refine ⟨rfl, rfl, ?_⟩
  norm_num +decide [update_ph_and_alkalinity, get_component_molarities,
    mol_entry, dfind, recognized_ids, MW_AC, solve_ph, brenth_result]

/-- C2 (counterexample): with every molarity zero (empty map) and the
strictly positive constant vector Ka ≡ 1e-14, the residual at h₁ = 1e-10 is
strictly below the residual at h₂ = 1e-4 although 1e-14 < h₁ < h₂ < 1; a
strictly decreasing function would give the opposite strict order, so the
claim fails at this input. -/
theorem acid_base_rxn_not_decreasing :
    (1 / 10 ^ 14 : ℚ) < 1 / 10 ^ 10 ∧ (1 / 10 ^ 10 : ℚ) < 1 / 10 ^ 4 ∧
    (1 / 10 ^ 4 : ℚ) < 1 ∧ (0 : ℚ) < 1 / 10 ^ 14 ∧
    acid_base_rxn (1 / 10 ^ 10) [] (fun _ => 1 / 10 ^ 14) <
      acid_base_rxn (1 / 10 ^ 4) [] (fun _ => 1 / 10 ^ 14) := by
  refine ⟨by norm_num, by norm_num, by norm_num, by norm_num, ?_⟩
  norm_num [acid_base_rxn, dget, dfind]

/-- C2 (amended): for non-negative molarities and strictly positive
dissociation constants, the charge-balance residual is strictly
*increasing* in the hydrogen-ion concentration over (1e-14, 1). -/
theorem acid_base_rxn_strict_increasing (c : List (String × ℚ))
    (Ka : Fin 7 → ℚ) (h1 h2 : ℚ) (hc : ∀ p ∈ c, 0 ≤ p.2)
    (hKa : ∀ i, 0 < Ka i) (hlo : 1 / 10 ^ 14 < h1) (h12 : h1 < h2)
    (hhi : h2 < 1) :
    acid_base_rxn h1 c Ka < acid_base_rxn h2 c Ka := by
  have h1p : (0 : ℚ) < h1 := lt_trans (by norm_num) hlo
  have h2p : (0 : ℚ) < h2 := h1p.trans h12
  have hfrac : ∀ S K : ℚ, 0 ≤ S → 0 < K →
      S * K / (K + h2) ≤ S * K / (K + h1) := by
    intro S K hS hK
    have d1 : (0 : ℚ) < K + h1 := by linarith
    have d2 : (0 : ℚ) < K + h2 := by linarith
    rw [div_le_div_iff d2 d1]
    exact mul_le_mul_of_nonneg_left (by linarith) (mul_nonneg hS hK.le)
  have hOH : Ka 0 / h2 ≤ Ka 0 / h1 := by
    rw [div_le_div_iff h2p h1p]
    exact mul_le_mul_of_nonneg_left h12.le (hKa 0).le
  have hIN := hfrac (dget c "S_IN") (Ka 1) (dget_nonneg hc "S_IN") (hKa 1)
  have hIC := hfrac (dget c "S_IC") (Ka 2) (dget_nonneg hc "S_IC") (hKa 2)
  have hAC := hfrac (dget c "S_ac") (Ka 3) (dget_nonneg hc "S_ac") (hKa 3)
  have hPR := hfrac (dget c "S_pro") (Ka 4) (dget_nonneg hc "S_pro") (hKa 4)
  have hBU := hfrac (dget c "S_bu") (Ka 5) (dget_nonneg hc "S_bu") (hKa 5)
  have hVA := hfrac (dget c "S_va") (Ka 6) (dget_nonneg hc "S_va") (hKa 6)
  simp only [acid_base_rxn]
  linarith

/-- Witness for the amended C2 theorem at the concrete input of the
counterexample. -/
theorem acid_base_rxn_strict_increasing_witness :
    acid_base_rxn (1 / 10 ^ 10) [] (fun _ => 1 / 10 ^ 14) <
      acid_base_rxn (1 / 10 ^ 4) [] (fun _ => 1 / 10 ^ 14) :=
  acid_base_rxn_strict_increasing [] (fun _ => 1 / 10 ^ 14) (1 / 10 ^ 10)
    (1 / 10 ^ 4) (by simp) (fun i => by norm_num) (by norm_num) (by norm_num)
    (by norm_num)

/-- C3: `acid_base_rxn` computes exactly the specification's charge-balance
formula, with dissociated fraction `S_X·Ka_X/(Ka_X+h)` applied to the
dictionary entries (absent species read as zero) and `OH = Kw/h`. -/
theorem acid_base_rxn_eq_spec_formula (c : List (String × ℚ))
    (Ka : Fin 7 → ℚ) (h : ℚ) (hh : 0 < h) (hKa : ∀ i, 0 < Ka i) :
    acid_base_rxn h c Ka =
      charge_balance_spec h (dget c "S_cat") (dget c "S_an") (dget c "S_IN")
        (dget c "S_IC") (dget c "S_ac") (dget c "S_pro") (dget c "S_bu")
        (dget c "S_va") (Ka 0) (Ka 1) (Ka 2) (Ka 3) (Ka 4) (Ka 5) (Ka 6) :=
  rfl

/-- Witness for C3 at a concrete input. -/
theorem acid_base_rxn_eq_spec_formula_witness :
    acid_base_rxn 1 [] (fun _ => 1) =
      charge_balance_spec 1 (dget [] "S_cat") (dget [] "S_an")
        (dget [] "S_IN") (dget [] "S_IC") (dget [] "S_ac") (dget [] "S_pro")
        (dget [] "S_bu") (dget [] "S_va") 1 1 1 1 1 1 1 :=
  acid_base_rxn_eq_spec_formula [] (fun _ => 1) 1 (by norm_num)
    (fun i => by norm_num)

/-- C4 (counterexample): a non-liquid stream that lacks both output
attributes passes through the phase gate completely unchanged — in
particular its pH field is *not* set to 7.0 and its alkalinity field is
*not* set to 0.0, because the source guards both writes with `hasattr`. -/
theorem phase_gate_missing_attrs_cex :
    update_ph_and_alkalinity (fun _ => 7) (fun _ => 1)
        RootOutcome.invalidBracket ⟨"g", [], none, none⟩ =
      .ok ⟨"g", [], none, none⟩ ∧
    (WasteStream.mk "g" [] none none).pH ≠ some 7 ∧
    (WasteStream.mk "g" [] none none).SAlk ≠ some 0 :=
  ⟨rfl, by simp, by simp⟩

/-- C4 (amended): for every non-liquid stream that possesses both output
attributes, `update_ph_and_alkalinity` sets pH to 7.0 and alkalinity to
0.0 and returns immediately, regardless of the stream's species
concentrations and of the root-finder outcome (no equilibrium solve is
attempted: even the `exhausted` outcome, which would raise in the solve
path, leaves this branch untouched). -/
theorem phase_gate_sets_defaults (negLog10 : ℚ → ℚ) (Ka : Fin 7 → ℚ)
    (outcome : RootOutcome) (s : WasteStream) (hph : s.phase ≠ "l")
    (hpH : s.pH.isSome) (hSA : s.SAlk.isSome) :
    update_ph_and_alkalinity negLog10 Ka outcome s =
      .ok { s with pH := some 7, SAlk := some 0 } := by
  rw [update_nonliquid negLog10 Ka outcome s hph]
  obtain ⟨a, ha⟩ := Option.isSome_iff_exists.mp hpH
  obtain ⟨b, hb⟩ := Option.isSome_iff_exists.mp hSA
  rw [ha, hb]
  rfl

/-- Witness for the amended C4 theorem: a gas-phase stream with arbitrary
concentrations and both attributes present. -/
theorem phase_gate_sets_defaults_witness :
    update_ph_and_alkalinity (fun _ => 7) (fun _ => 1) RootOutcome.exhausted
        ⟨"g", [("S_IC", 24022)], some 3, some 9⟩ =
      .ok ⟨"g", [("S_IC", 24022)], some 7, some 0⟩ :=
  phase_gate_sets_defaults (fun _ => 7) (fun _ => 1) RootOutcome.exhausted
    ⟨"g", [("S_IC", 24022)], some 3, some 9⟩ (by simp) rfl rfl

/-- C5: on a liquid stream whose extracted inorganic-carbon molarity
exceeds 0.01 mol/L, whenever the update returns, the alkalinity written
back is the maximum of the equilibrium-derived alkalinity and the direct
estimate `S_IC · 0.7 · 1000` meq/L — hence at least `0.7 · S_IC · 1000`. -/
theorem high_IC_alkalinity_floor (negLog10 : ℚ → ℚ) (Ka : Fin 7 → ℚ)
    (outcome : RootOutcome) (s s' : WasteStream) (h_ion : ℚ)
    (hl : s.phase = "l") (hsv : solve_ph outcome = .ok h_ion)
    (hok : update_ph_and_alkalinity negLog10 Ka outcome s = .ok s')
    (hic : 1 / 100 < dget (get_component_molarities s) "S_IC") :
    s'.SAlk = some (max
        (calculate_alkalinity (get_component_molarities s) h_ion Ka)
        (dget (get_component_molarities s) "S_IC" * (7 / 10) * 1000)) ∧
    (7 / 10) * dget (get_component_molarities s) "S_IC" * 1000 ≤
      max (calculate_alkalinity (get_component_molarities s) h_ion Ka)
        (dget (get_component_molarities s) "S_IC" * (7 / 10) * 1000) := by
  have hm : get_component_molarities s ≠ [] := by
    intro hnil
    rw [hnil] at hic
    norm_num [dget, dfind] at hic
  rw [update_full negLog10 Ka outcome s h_ion hl hm hsv] at hok
  obtain rfl := Except.ok.inj hok
  constructor
  · show some _ = some _
    rw [if_pos hic]
  · calc (7 / 10) * dget (get_component_molarities s) "S_IC" * 1000
        = dget (get_component_molarities s) "S_IC" * (7 / 10) * 1000 := by
          ring
      _ ≤ max (calculate_alkalinity (get_component_molarities s) h_ion Ka)
            (dget (get_component_molarities s) "S_IC" * (7 / 10) * 1000) :=
          le_max_right _ _

/-- Witness for C5: a liquid stream carrying 24022 mg/L of inorganic
carbon (2 mol/L), solved at h = 1 with all constants 1; the equilibrium
alkalinity is 1000 meq/L and the direct estimate 1400 meq/L wins. -/
theorem high_IC_alkalinity_floor_witness :
    (WasteStream.mk "l" [("S_IC", 24022)] (some 7) (some 1400)).SAlk =
      some (max
        (calculate_alkalinity
          (get_component_molarities ⟨"l", [("S_IC", 24022)], none, none⟩)
          1 (fun _ => 1))
        (dget (get_component_molarities ⟨"l", [("S_IC", 24022)], none, none⟩)
          "S_IC" * (7 / 10) * 1000)) ∧
    (7 / 10) * dget
        (get_component_molarities ⟨"l", [("S_IC", 24022)], none, none⟩)
        "S_IC" * 1000 ≤
      max (calculate_alkalinity
          (get_component_molarities ⟨"l", [("S_IC", 24022)], none, none⟩)
          1 (fun _ => 1))
        (dget (get_component_molarities ⟨"l", [("S_IC", 24022)], none, none⟩)
          "S_IC" * (7 / 10) * 1000) :=
  high_IC_alkalinity_floor (fun _ => 7) (fun _ => 1) (RootOutcome.found 1)
    ⟨"l", [("S_IC", 24022)], none, none⟩
    ⟨"l", [("S_IC", 24022)], some 7, some 1400⟩ 1 rfl rfl
    (by norm_num +decide [update_ph_and_alkalinity, get_component_molarities,
      mol_entry, dfind, recognized_ids, C_mw, solve_ph, brenth_result,
      calculate_alkalinity, dget])
    (by norm_num +decide [get_component_molarities, mol_entry, dfind,
      recognized_ids, C_mw, dget])

/-- C6: on a liquid stream none of whose component identifiers is one of
the eight recognized species, the update short-circuits to the defaults
pH = 7.0 and alkalinity = 2.5 meq/L (both written unconditionally). -/
theorem empty_species_defaults (negLog10 : ℚ → ℚ) (Ka : Fin 7 → ℚ)
    (outcome : RootOutcome) (s : WasteStream) (hl : s.phase = "l")
    (habs : ∀ p ∈ s.iconc, p.1 ∉
      (["S_cat", "S_an", "S_IN", "S_IC", "S_ac", "S_pro", "S_bu", "S_va"] :
        List String)) :
    update_ph_and_alkalinity negLog10 Ka outcome s =
      .ok { s with pH := some 7, SAlk := some (5 / 2) } :=
  update_empty negLog10 Ka outcome s hl (gcm_eq_nil s habs)

/-- Witness for C6: a liquid stream containing only water. -/
theorem empty_species_defaults_witness :
    update_ph_and_alkalinity (fun _ => 7) (fun _ => 1)
        RootOutcome.invalidBracket ⟨"l", [("H2O", 1000)], none, some 9⟩ =
      .ok ⟨"l", [("H2O", 1000)], some 7, some (5 / 2)⟩ :=
  empty_species_defaults (fun _ => 7) (fun _ => 1) RootOutcome.invalidBracket
    ⟨"l", [("H2O", 1000)], none, some 9⟩ rfl (by decide)

/-- C7: the alkalinity returned by `calculate_alkalinity` is clamped to a
minimum of zero for every input, and consequently every alkalinity value
the update writes onto a stream is non-negative. -/
theorem alkalinity_nonneg :
    (∀ (c : List (String × ℚ)) (h_ion : ℚ) (Ka : Fin 7 → ℚ),
        0 ≤ calculate_alkalinity c h_ion Ka) ∧
    (∀ (negLog10 : ℚ → ℚ) (Ka : Fin 7 → ℚ) (outcome : RootOutcome)
        (s s' : WasteStream) (a : ℚ),
        update_ph_and_alkalinity negLog10 Ka outcome s = .ok s' →
        s'.SAlk = some a → 0 ≤ a) :=
  ⟨calculate_alkalinity_nonneg,
   fun negLog10 Ka outcome s s' a hok ha =>
     (update_ok_inv negLog10 Ka outcome s s' hok).2.2 a ha⟩

/-- Witness for C7 at concrete inputs: an arbitrary evaluation of the
clamp, and the alkalinity written by a concrete run of the update. -/
theorem alkalinity_nonneg_witness :
    0 ≤ calculate_alkalinity [("S_an", 1)] 1 (fun _ => 1) ∧
    (0 : ℚ) ≤ 5 / 2 :=
  ⟨alkalinity_nonneg.1 [("S_an", 1)] 1 (fun _ => 1),
   alkalinity_nonneg.2 (fun _ => 7) (fun _ => 1) RootOutcome.invalidBracket
     ⟨"l", [("H2O", 1000)], none, none⟩
     ⟨"l", [("H2O", 1000)], some 7, some (5 / 2)⟩ (5 / 2)
     (by norm_num +decide [update_ph_and_alkalinity, get_component_molarities,
       mol_entry, dfind, recognized_ids]) rfl⟩

/-- C8: on any non-negative molarities, strictly positive constants and a
(positive) candidate hydrogen-ion concentration, every division in
`acid_base_rxn` has a nonzero denominator: the checked evaluation
succeeds and returns exactly the real number given by the formula — the
function is total, pure and exception-free on this domain. -/
theorem acid_base_rxn_total (c : List (String × ℚ)) (Ka : Fin 7 → ℚ)
    (h_ion : ℚ) (hc : ∀ p ∈ c, 0 ≤ p.2) (hKa : ∀ i, 0 < Ka i)
    (hh : 0 < h_ion) :
    acid_base_rxn_checked h_ion c Ka = some (acid_base_rxn h_ion c Ka) := by
  unfold acid_base_rxn_checked
  rw [if_neg]
  push_neg
  exact ⟨ne_of_gt hh, ne_of_gt (add_pos (hKa 1) hh),
    ne_of_gt (add_pos (hKa 2) hh), ne_of_gt (add_pos (hKa 3) hh),
    ne_of_gt (add_pos (hKa 4) hh), ne_of_gt (add_pos (hKa 5) hh),
    ne_of_gt (add_pos (hKa 6) hh)⟩

/-- Witness for C8 at a concrete input. -/
theorem acid_base_rxn_total_witness :
    acid_base_rxn_checked 1 [("S_ac", 1)] (fun _ => 1) =
      some (acid_base_rxn 1 [("S_ac", 1)] (fun _ => 1)) :=
  acid_base_rxn_total [("S_ac", 1)] (fun _ => 1) 1 (by norm_num)
    (fun i => by norm_num) (by norm_num)

/-- C9: a successful update of a liquid stream changes only the two output
fields: phase and all species concentrations are returned exactly as they
came in (the source mutates the same object in place and returns it). -/
theorem update_frame_condition (negLog10 : ℚ → ℚ) (Ka : Fin 7 → ℚ)
    (outcome : RootOutcome) (s s' : WasteStream) (hl : s.phase = "l")
    (hok : update_ph_and_alkalinity negLog10 Ka outcome s = .ok s') :
    s'.phase = s.phase ∧ s'.iconc = s.iconc :=
  ⟨(update_ok_inv negLog10 Ka outcome s s' hok).1,
   (update_ok_inv negLog10 Ka outcome s s' hok).2.1⟩

/-- Witness for C9 on a concrete liquid stream. -/
theorem update_frame_condition_witness :
    (WasteStream.mk "l" [("H2O", 5)] (some 7) (some (5 / 2))).phase =
      (WasteStream.mk "l" [("H2O", 5)] none none).phase ∧
    (WasteStream.mk "l" [("H2O", 5)] (some 7) (some (5 / 2))).iconc =
      (WasteStream.mk "l" [("H2O", 5)] none none).iconc :=
  update_frame_condition (fun _ => 7) (fun _ => 1) RootOutcome.invalidBracket
    ⟨"l", [("H2O", 5)], none, none⟩
    ⟨"l", [("H2O", 5)], some 7, some (5 / 2)⟩ rfl
    (by norm_num +decide [update_ph_and_alkalinity, get_component_molarities,
      mol_entry, dfind, recognized_ids])

/-- C10: for a non-liquid stream the defaults are written only through the
`hasattr` guards: an existing pH attribute becomes 7.0 and an existing
alkalinity attribute becomes 0.0, but an absent attribute stays absent
(`Option.map` leaves `none` untouched), and no other field changes. -/
theorem nonliquid_hasattr_guard (negLog10 : ℚ → ℚ) (Ka : Fin 7 → ℚ)
    (outcome : RootOutcome) (s : WasteStream) (hph : s.phase ≠ "l") :
    update_ph_and_alkalinity negLog10 Ka outcome s =
      .ok { s with pH := s.pH.map (fun _ => 7),
                   SAlk := s.SAlk.map (fun _ => 0) } :=
  update_nonliquid negLog10 Ka outcome s hph

/-- Witness for C10: a gas-phase stream lacking the pH attribute keeps it
absent while its existing alkalinity attribute is reset to zero. -/
theorem nonliquid_hasattr_guard_witness :
    update_ph_and_alkalinity (fun _ => 7) (fun _ => 1)
        RootOutcome.invalidBracket ⟨"g", [("S_va", 102)], none, some 9⟩ =
      .ok ⟨"g", [("S_va", 102)], none, some 0⟩ :=
  nonliquid_hasattr_guard (fun _ => 7) (fun _ => 1)
    RootOutcome.invalidBracket ⟨"g", [("S_va", 102)], none, some 9⟩
    (by simp)
